import Mathlib

/-!
Shallow embedding of the plat-ibkr reporting tool (src/main.rs).

The program connects to a brokerage gateway, drains three streaming
subscriptions (account summary, positions, a market-data snapshot) into
flat row collections, and renders the aggregate in one of three formats
(text, JSON, CSV).

The embedding models each subscription as an `Option (List Msg)`:
`none` is a failed subscription open (`Err` from the client call), and
`some msgs` is the sequence of messages the subscription would yield.
Each drain loop is a function on that message list returning the row
collection together with an explicit trace of how many `cancel()` calls
were issued and how many messages were read, so that the cancellation
and back-pressure claims are statable.  `f64` fields are modelled as
Lean `Float`; no Float arithmetic is ever evaluated, only carried
symbolically, which matches the program (it computes the product once
and never inspects it).
-/

namespace PlatIbkr

/-- Row of the account-summary table (struct `AccountSummaryRow`). -/
structure AccountSummaryRow where
  account : String
  tag : String
  value : String
  currency : String

/-- Row of the positions table (struct `PositionRow`). -/
structure PositionRow where
  account : String
  symbol : String
  position : Float
  average_cost : Float
  market_value : Float

/-- Row of the market-data table (struct `MarketDataRow`). -/
structure MarketDataRow where
  symbol : String
  tick_type : String
  value : Float

/-- The aggregate report (struct `OutputData`). -/
structure OutputData where
  account_summary : List AccountSummaryRow
  positions : List PositionRow
  market_data : List MarketDataRow

/-- Payload of an `AccountSummaryResult::Summary` message from the gateway. -/
structure Summary where
  account : String
  tag : String
  value : String
  currency : String

/-- Messages yielded by an account-summary subscription
(`AccountSummaryResult` in the ibapi crate). -/
inductive AccountSummaryResult where
  | Summary (summary : Summary)
  | End

/-- The contract attached to a position update; the program only reads
its `symbol`. -/
structure Contract where
  symbol : String

/-- Payload of a `PositionUpdate::Position` message from the gateway. -/
structure PositionData where
  account : String
  contract : Contract
  position : Float
  average_cost : Float

/-- Messages yielded by a positions subscription (`PositionUpdate`). -/
inductive PositionUpdate where
  | Position (pos : PositionData)
  | PositionEnd

/-- Payload of a `TickTypes::Price` tick.  The Rust code turns the
tick-type enum into a string with `format!("{:?}", ...)`; the embedding
carries that rendered label directly. -/
structure TickPrice where
  tick_type : String
  price : Float

/-- Payload of a `TickTypes::Size` tick. -/
structure TickSize where
  tick_type : String
  size : Float

/-- Payload of a `TickTypes::PriceSize` tick. -/
structure TickPriceSize where
  price_tick_type : String
  price : Float
  size_tick_type : String
  size : Float

/-- Messages yielded by a market-data snapshot subscription.  The ibapi
`TickTypes` enum has further variants that the program's `_ => {}` arm
ignores; `OtherTick` stands for any of them. -/
inductive TickTypes where
  | Price (price : TickPrice)
  | Size (size : TickSize)
  | PriceSize (ps : TickPriceSize)
  | SnapshotEnd
  | OtherTick

/-- Result of running one drain loop on a message list: the rows pushed,
the number of `cancel()` calls issued on the subscription, and the
number of messages read from it before the loop returned. -/
structure DrainTrace (Row : Type) where
  rows : List Row
  cancels : Nat
  consumed : Nat

/-- Row built from one `Summary` message (body of the `Summary` arm in
`collect_account_summary`). -/
def summaryToRow (s : Summary) : AccountSummaryRow :=
  { account := s.account, tag := s.tag, value := s.value, currency := s.currency }

/-- The `for update in &subscription` loop of `collect_account_summary`:
push a row per `Summary`; on `End`, call `cancel()` and `break`.  If the
message sequence ends without `End`, the loop just ends (no cancel). -/
def drain_account_summary : List AccountSummaryResult → DrainTrace AccountSummaryRow
  | [] => ⟨[], 0, 0⟩
  | AccountSummaryResult.Summary s :: rest =>
      ⟨summaryToRow s :: (drain_account_summary rest).rows,
        (drain_account_summary rest).cancels,
        (drain_account_summary rest).consumed + 1⟩
  | AccountSummaryResult.End :: _ => ⟨[], 1, 1⟩

/-- `collect_account_summary`: on `Err` from `client.account_summary`
(the `none` case) the row collection stays empty; otherwise the drain
loop runs. -/
def collect_account_summary : Option (List AccountSummaryResult) → List AccountSummaryRow
  | none => []
  | some msgs => (drain_account_summary msgs).rows

/-- Row built from one `Position` message (body of the `Position` arm in
`collect_positions`); `market_value` is derived as
`position * average_cost`. -/
def positionToRow (pos : PositionData) : PositionRow :=
  { account := pos.account, symbol := pos.contract.symbol,
    position := pos.position, average_cost := pos.average_cost,
    market_value := pos.position * pos.average_cost }

/-- The `while let Some(update) = positions.next()` loop of
`collect_positions`: push a row per `Position`; on `PositionEnd`, call
`cancel()` and `break`. -/
def drain_positions : List PositionUpdate → DrainTrace PositionRow
  | [] => ⟨[], 0, 0⟩
  | PositionUpdate.Position pos :: rest =>
      ⟨positionToRow pos :: (drain_positions rest).rows,
        (drain_positions rest).cancels,
        (drain_positions rest).consumed + 1⟩
  | PositionUpdate.PositionEnd :: _ => ⟨[], 1, 1⟩

/-- `collect_positions`: on `Err` from `client.positions()` the row
collection stays empty; otherwise the drain loop runs. -/
def collect_positions : Option (List PositionUpdate) → List PositionRow
  | none => []
  | some msgs => (drain_positions msgs).rows

/-- The `for tick in &subscription` loop of `collect_market_data`:
`Price` and `PriceSize` push a row with `value = price`, `Size` pushes a
row with `value = size`, `SnapshotEnd` breaks WITHOUT a `cancel()` call,
and every other variant is skipped by the `_ => {}` arm. -/
def drain_market_data (symbol : String) : List TickTypes → DrainTrace MarketDataRow
  | [] => ⟨[], 0, 0⟩
  | TickTypes.Price p :: rest =>
      ⟨⟨symbol, p.tick_type, p.price⟩ :: (drain_market_data symbol rest).rows,
        (drain_market_data symbol rest).cancels,
        (drain_market_data symbol rest).consumed + 1⟩
  | TickTypes.Size s :: rest =>
      ⟨⟨symbol, s.tick_type, s.size⟩ :: (drain_market_data symbol rest).rows,
        (drain_market_data symbol rest).cancels,
        (drain_market_data symbol rest).consumed + 1⟩
  | TickTypes.PriceSize ps :: rest =>
      ⟨⟨symbol, ps.price_tick_type, ps.price⟩ :: (drain_market_data symbol rest).rows,
        (drain_market_data symbol rest).cancels,
        (drain_market_data symbol rest).consumed + 1⟩
  | TickTypes.SnapshotEnd :: _ => ⟨[], 0, 1⟩
  | TickTypes.OtherTick :: rest =>
      ⟨(drain_market_data symbol rest).rows,
        (drain_market_data symbol rest).cancels,
        (drain_market_data symbol rest).consumed + 1⟩

/-- `collect_market_data`: on `Err` from the `.subscribe()` call the row
collection stays empty; otherwise the drain loop runs. -/
def collect_market_data (symbol : String) : Option (List TickTypes) → List MarketDataRow
  | none => []
  | some ticks => (drain_market_data symbol ticks).rows

/-- Per-tick row mapping of the market-data loop, as a standalone
function: the row (if any) that one tick message contributes. -/
def tickToRow (symbol : String) : TickTypes → Option MarketDataRow
  | TickTypes.Price p => some ⟨symbol, p.tick_type, p.price⟩
  | TickTypes.Size s => some ⟨symbol, s.tick_type, s.size⟩
  | TickTypes.PriceSize ps => some ⟨symbol, ps.price_tick_type, ps.price⟩
  | TickTypes.SnapshotEnd => none
  | TickTypes.OtherTick => none

/-- Output format selected on the command line (enum `OutputFormat`). -/
inductive OutputFormat where
  | Text
  | Json
  | Csv

/-- One `println!` of `print_text`, at the granularity of the source's
print statements.  The spec declares exact line content non-contractual
("stable line content is not a contract"), so row lines carry the row
they format rather than a rendered string; structural lines (banners,
titles, placeholders, blanks) are individual constructors. -/
inductive TextLine where
  | banner
  | title (s : String)
  | summaryNoCurrency (r : AccountSummaryRow)
  | summaryWithCurrency (r : AccountSummaryRow)
  | positionLine (r : PositionRow)
  | noPositions
  | marketLine (r : MarketDataRow)
  | noMarketData
  | blank
  | done

/-- `print_text`: three banner-headed sections in fixed order.  The
account-summary section has no empty-placeholder branch in the source;
positions print `"  (no positions)"` and market data
`"  (no data - may need market data subscription)"` when empty. -/
def print_text (d : OutputData) (symbol : String) : List TextLine :=
  [TextLine.banner, TextLine.title "ACCOUNT SUMMARY", TextLine.banner] ++
  d.account_summary.map (fun r =>
    if r.currency.isEmpty then TextLine.summaryNoCurrency r
    else TextLine.summaryWithCurrency r) ++
  [TextLine.blank, TextLine.banner, TextLine.title "POSITIONS", TextLine.banner] ++
  (if d.positions.isEmpty then [TextLine.noPositions]
   else d.positions.map TextLine.positionLine) ++
  [TextLine.blank, TextLine.banner, TextLine.title ("MARKET DATA: " ++ symbol),
    TextLine.banner] ++
  (if d.market_data.isEmpty then [TextLine.noMarketData]
   else d.market_data.map TextLine.marketLine) ++
  [TextLine.blank, TextLine.done]

/-- Whether a text line is one of the two empty-section placeholder
lines the source can print. -/
def TextLine.isPlaceholder : TextLine → Bool
  | TextLine.noPositions => true
  | TextLine.noMarketData => true
  | _ => false

/-- Whether a text line is a section title. -/
def TextLine.isTitle : TextLine → Bool
  | TextLine.title _ => true
  | _ => false

/-- JSON values, as needed to model `serde_json::to_string_pretty` up to
whitespace (the spec makes pretty-printing cosmetic, not contractual). -/
inductive JsonValue where
  | str (s : String)
  | num (x : Float)
  | arr (items : List JsonValue)
  | obj (fields : List (String × JsonValue))

/-- Field names of a JSON object (in serialization order). -/
def JsonValue.topKeys : JsonValue → List String
  | JsonValue.obj fields => fields.map Prod.fst
  | _ => []

/-- serde serialization of `AccountSummaryRow`: field names are the Rust
field names (no rename attributes in the source). -/
def accountSummaryRowJson (r : AccountSummaryRow) : JsonValue :=
  JsonValue.obj [("account", JsonValue.str r.account), ("tag", JsonValue.str r.tag),
    ("value", JsonValue.str r.value), ("currency", JsonValue.str r.currency)]

/-- serde serialization of `PositionRow`. -/
def positionRowJson (r : PositionRow) : JsonValue :=
  JsonValue.obj [("account", JsonValue.str r.account), ("symbol", JsonValue.str r.symbol),
    ("position", JsonValue.num r.position), ("average_cost", JsonValue.num r.average_cost),
    ("market_value", JsonValue.num r.market_value)]

/-- serde serialization of `MarketDataRow`. -/
def marketDataRowJson (r : MarketDataRow) : JsonValue :=
  JsonValue.obj [("symbol", JsonValue.str r.symbol),
    ("tick_type", JsonValue.str r.tick_type), ("value", JsonValue.num r.value)]

/-- `print_json`: the whole `OutputData` serialized as one top-level
object with the three collections under the Rust field names. -/
def print_json (d : OutputData) : JsonValue :=
  JsonValue.obj [
    ("account_summary", JsonValue.arr (d.account_summary.map accountSummaryRowJson)),
    ("positions", JsonValue.arr (d.positions.map positionRowJson)),
    ("market_data", JsonValue.arr (d.market_data.map marketDataRowJson))]

/-- One stdout line of `print_csv`.  The `csv::Writer` emits a header
record (the struct's field names) on the first `serialize` call, then
one record per row; the `println!()` after each of the first two tables
is a blank line.  Records carry the row; exact quoting is cosmetic. -/
inductive CsvLine where
  | header (cols : List String)
  | summaryRecord (r : AccountSummaryRow)
  | positionRecord (r : PositionRow)
  | marketRecord (r : MarketDataRow)
  | blank

/-- Whether a CSV stdout line is a header record. -/
def CsvLine.isHeader : CsvLine → Bool
  | CsvLine.header _ => true
  | _ => false

/-- Whether a CSV stdout line is the blank separator. -/
def CsvLine.isBlank : CsvLine → Bool
  | CsvLine.blank => true
  | _ => false

/-- Whether a CSV stdout line belongs to the positions table (its header
or one of its records). -/
def CsvLine.isPositionsLine : CsvLine → Bool
  | CsvLine.header cols =>
      cols == ["account", "symbol", "position", "average_cost", "market_value"]
  | CsvLine.positionRecord _ => true
  | _ => false

/-- `print_csv` stdout: each non-empty collection contributes a header,
its records, and (for the first two tables) a trailing blank line; an
empty collection contributes nothing at all. -/
def print_csv (d : OutputData) : List CsvLine :=
  (if d.account_summary.isEmpty then [] else
    CsvLine.header ["account", "tag", "value", "currency"] ::
      d.account_summary.map CsvLine.summaryRecord ++ [CsvLine.blank]) ++
  (if d.positions.isEmpty then [] else
    CsvLine.header ["account", "symbol", "position", "average_cost", "market_value"] ::
      d.positions.map CsvLine.positionRecord ++ [CsvLine.blank]) ++
  (if d.market_data.isEmpty then [] else
    CsvLine.header ["symbol", "tick_type", "value"] ::
      d.market_data.map CsvLine.marketRecord)

/-- `print_csv` stderr: the `eprintln!` section labels, one per
non-empty collection. -/
def print_csv_labels (d : OutputData) : List String :=
  (if d.account_summary.isEmpty then [] else ["# Account Summary"]) ++
  (if d.positions.isEmpty then [] else ["# Positions"]) ++
  (if d.market_data.isEmpty then [] else ["# Market Data"])

/-- The environment `main` runs against: whether `Client::connect`
succeeds, and the outcome of each of the three subscription opens
(`none` models the request returning `Err`). -/
structure Gateway where
  connect_ok : Bool
  account_summary_sub : Option (List AccountSummaryResult)
  positions_sub : Option (List PositionUpdate)
  market_data_sub : Option (List TickTypes)

/-- The report rendered in the selected format. -/
inductive RenderedOutput where
  | text (lines : List TextLine)
  | json (value : JsonValue)
  | csv (lines : List CsvLine)

/-- The `OutputData` that `main` assembles: each collection comes from
its own collect call; market data is skipped under `--no-market-data`. -/
def build_output_data (g : Gateway) (symbol : String) (no_market_data : Bool) :
    OutputData :=
  { account_summary := collect_account_summary g.account_summary_sub,
    positions := collect_positions g.positions_sub,
    market_data :=
      if no_market_data then [] else collect_market_data symbol g.market_data_sub }

/-- The format dispatch at the end of `main`. -/
def render (format : OutputFormat) (d : OutputData) (symbol : String) :
    RenderedOutput :=
  match format with
  | OutputFormat.Text => RenderedOutput.text (print_text d symbol)
  | OutputFormat.Json => RenderedOutput.json (print_json d)
  | OutputFormat.Csv => RenderedOutput.csv (print_csv d)

/-- `main`: exit code 1 (and no report) when the connection fails;
otherwise collect the three categories, render, and exit 0. -/
def run_main (g : Gateway) (format : OutputFormat) (symbol : String)
    (no_market_data : Bool) : Nat × Option (OutputData × RenderedOutput) :=
  if g.connect_ok then
    (0, some (build_output_data g symbol no_market_data,
      render format (build_output_data g symbol no_market_data) symbol))
  else
    (1, none)

/-- Concrete sample account-summary message payload, for witnesses. -/
def sampleSummary : Summary := ⟨"DU123", "BuyingPower", "5000", "USD"⟩

/-- Concrete sample position payload (2 units at average cost 3), for
witnesses. -/
def samplePosition : PositionData := ⟨"DU123", ⟨"AAPL"⟩, 2.0, 3.0⟩

/-- Concrete sample price tick, for witnesses. -/
def samplePriceTick : TickPrice := ⟨"LastPrice", 1.5⟩

/-- Concrete sample size tick, for witnesses. -/
def sampleSizeTick : TickSize := ⟨"Volume", 100.0⟩

/-! ### Helper lemmas about the drain loops -/

/-- Draining an account-summary stream whose prefix is free of `End`
issues exactly one cancel and reads exactly the prefix plus the `End`
sentinel. -/
theorem drain_account_summary_stops (pre post : List AccountSummaryResult)
    (hpre : ∀ m ∈ pre, m ≠ AccountSummaryResult.End) :
    (drain_account_summary (pre ++ AccountSummaryResult.End :: post)).cancels = 1 ∧
    (drain_account_summary (pre ++ AccountSummaryResult.End :: post)).consumed =
      pre.length + 1 := by
  induction pre with
  | nil => exact ⟨rfl, rfl⟩
  | cons m pre ih =>
    cases m with
    | Summary s =>
      have h := ih (fun m hm => hpre m (List.mem_cons_of_mem _ hm))
      simp [drain_account_summary, h.1, h.2]
    | End => exact absurd rfl (hpre _ (List.mem_cons_self _ _))

/-- Draining a positions stream whose prefix is free of `PositionEnd`
issues exactly one cancel and reads exactly the prefix plus the
sentinel. -/
theorem drain_positions_stops (pre post : List PositionUpdate)
    (hpre : ∀ m ∈ pre, m ≠ PositionUpdate.PositionEnd) :
    (drain_positions (pre ++ PositionUpdate.PositionEnd :: post)).cancels = 1 ∧
    (drain_positions (pre ++ PositionUpdate.PositionEnd :: post)).consumed =
      pre.length + 1 := by
  induction pre with
  | nil => exact ⟨rfl, rfl⟩
  | cons m pre ih =>
    cases m with
    | Position pos =>
      have h := ih (fun m hm => hpre m (List.mem_cons_of_mem _ hm))
      simp [drain_positions, h.1, h.2]
    | PositionEnd => exact absurd rfl (hpre _ (List.mem_cons_self _ _))

/-- Draining a market-data stream whose prefix is free of `SnapshotEnd`
issues NO cancel and reads exactly the prefix plus the sentinel. -/
theorem drain_market_data_stops (symbol : String) (pre post : List TickTypes)
    (hpre : ∀ t ∈ pre, t ≠ TickTypes.SnapshotEnd) :
    (drain_market_data symbol (pre ++ TickTypes.SnapshotEnd :: post)).cancels = 0 ∧
    (drain_market_data symbol (pre ++ TickTypes.SnapshotEnd :: post)).consumed =
      pre.length + 1 := by
  induction pre with
  | nil => exact ⟨rfl, rfl⟩
  | cons t pre ih =>
    have h := ih (fun t ht => hpre t (List.mem_cons_of_mem _ ht))
    cases t with
    | Price p => simp [drain_market_data, h.1, h.2]
    | Size s => simp [drain_market_data, h.1, h.2]
    | PriceSize ps => simp [drain_market_data, h.1, h.2]
    | SnapshotEnd => exact absurd rfl (hpre _ (List.mem_cons_self _ _))
    | OtherTick => simp [drain_market_data, h.1, h.2]

/-- The rows the market-data loop produces before `SnapshotEnd` are the
per-tick mapping of the prefix, in order. -/
theorem drain_market_data_rows (symbol : String) (pre post : List TickTypes)
    (hpre : ∀ t ∈ pre, t ≠ TickTypes.SnapshotEnd) :
    (drain_market_data symbol (pre ++ TickTypes.SnapshotEnd :: post)).rows =
      pre.filterMap (tickToRow symbol) := by
  induction pre with
  | nil => rfl
  | cons t pre ih =>
    have h := ih (fun t ht => hpre t (List.mem_cons_of_mem _ ht))
    cases t with
    | Price p => simp [drain_market_data, tickToRow, h]
    | Size s => simp [drain_market_data, tickToRow, h]
    | PriceSize ps => simp [drain_market_data, tickToRow, h]
    | SnapshotEnd => exact absurd rfl (hpre _ (List.mem_cons_self _ _))
    | OtherTick => simp [drain_market_data, tickToRow, h]

/-- Filtering a mapped list by a predicate that rejects the whole image
of the mapping yields the empty list. -/
theorem filter_map_eq_nil {α β : Type} (p : β → Bool) (f : α → β)
    (hf : ∀ a, p (f a) = false) (l : List α) :
    (l.map f).filter p = [] := by
  rw [List.filter_eq_nil_iff]
  intro b hb
  obtain ⟨a, _, rfl⟩ := List.mem_map.mp hb
  simp [hf a]

/-! ### Claim theorems -/

/-- C1 counterexample: the market-data drain loop, on observing its
terminal sentinel `SnapshotEnd`, issues NO cancel on the subscription
(the source's `SnapshotEnd => break` arm has no `cancel()` call), so
the claim that every drain loop cancels exactly once is false. -/
theorem market_data_loop_breaks_without_cancel :
    (drain_market_data "AAPL" [TickTypes.SnapshotEnd]).cancels = 0 ∧
    ¬ (drain_market_data "AAPL" [TickTypes.SnapshotEnd]).cancels = 1 := by
  exact ⟨rfl, by decide⟩

/-- C1 (amended): the account-summary and positions drain loops, on
observing their terminal sentinel, issue exactly one explicit cancel
before returning and read no message past the sentinel; the market-data
loop likewise stops reading at `SnapshotEnd` but issues no explicit
cancel. -/
theorem drain_cancel_discipline
    (pre post : List AccountSummaryResult)
    (hpre : ∀ m ∈ pre, m ≠ AccountSummaryResult.End)
    (ppre ppost : List PositionUpdate)
    (hppre : ∀ m ∈ ppre, m ≠ PositionUpdate.PositionEnd)
    (symbol : String) (tpre tpost : List TickTypes)
    (htpre : ∀ t ∈ tpre, t ≠ TickTypes.SnapshotEnd) :
    (drain_account_summary (pre ++ AccountSummaryResult.End :: post)).cancels = 1 ∧
    (drain_account_summary (pre ++ AccountSummaryResult.End :: post)).consumed =
      pre.length + 1 ∧
    (drain_positions (ppre ++ PositionUpdate.PositionEnd :: ppost)).cancels = 1 ∧
    (drain_positions (ppre ++ PositionUpdate.PositionEnd :: ppost)).consumed =
      ppre.length + 1 ∧
    (drain_market_data symbol (tpre ++ TickTypes.SnapshotEnd :: tpost)).cancels = 0 ∧
    (drain_market_data symbol (tpre ++ TickTypes.SnapshotEnd :: tpost)).consumed =
      tpre.length + 1 := by
  obtain ⟨a1, a2⟩ := drain_account_summary_stops pre post hpre
  obtain ⟨p1, p2⟩ := drain_positions_stops ppre ppost hppre
  obtain ⟨m1, m2⟩ := drain_market_data_stops symbol tpre tpost htpre
  exact ⟨a1, a2, p1, p2, m1, m2⟩

/-- C1 witness: a concrete stream per loop (one data message, then the
sentinel, then one stray message past it). -/
theorem drain_cancel_discipline_witness :
    (∀ m ∈ [AccountSummaryResult.Summary sampleSummary],
      m ≠ AccountSummaryResult.End) ∧
    (∀ m ∈ [PositionUpdate.Position samplePosition],
      m ≠ PositionUpdate.PositionEnd) ∧
    (∀ t ∈ [TickTypes.Price samplePriceTick],
      t ≠ TickTypes.SnapshotEnd) ∧
    ((drain_account_summary ([AccountSummaryResult.Summary sampleSummary] ++
        AccountSummaryResult.End :: [AccountSummaryResult.End])).cancels = 1 ∧
      (drain_account_summary ([AccountSummaryResult.Summary sampleSummary] ++
        AccountSummaryResult.End :: [AccountSummaryResult.End])).consumed =
        [AccountSummaryResult.Summary sampleSummary].length + 1 ∧
      (drain_positions ([PositionUpdate.Position samplePosition] ++
        PositionUpdate.PositionEnd :: [PositionUpdate.PositionEnd])).cancels = 1 ∧
      (drain_positions ([PositionUpdate.Position samplePosition] ++
        PositionUpdate.PositionEnd :: [PositionUpdate.PositionEnd])).consumed =
        [PositionUpdate.Position samplePosition].length + 1 ∧
      (drain_market_data "AAPL" ([TickTypes.Price samplePriceTick] ++
        TickTypes.SnapshotEnd :: [TickTypes.OtherTick])).cancels = 0 ∧
      (drain_market_data "AAPL" ([TickTypes.Price samplePriceTick] ++
        TickTypes.SnapshotEnd :: [TickTypes.OtherTick])).consumed =
        [TickTypes.Price samplePriceTick].length + 1) := by
  refine ⟨?_, ?_, ?_, ?_⟩
  · intro m hm
    simp only [List.mem_singleton] at hm
    subst hm
    nofun
  · intro m hm
    simp only [List.mem_singleton] at hm
    subst hm
    nofun
  · intro t ht
    simp only [List.mem_singleton] at ht
    subst ht
    nofun
  · exact drain_cancel_discipline _ _
      (by intro m hm; simp only [List.mem_singleton] at hm; subst hm; nofun) _ _
      (by intro m hm; simp only [List.mem_singleton] at hm; subst hm; nofun) "AAPL" _ _
      (by intro t ht; simp only [List.mem_singleton] at ht; subst ht; nofun)

/-- C2: every row the positions loop produces (over any subscription
outcome) has `market_value` equal to the floating-point product
`position * average_cost`, exactly as computed in the source. -/
theorem position_market_value_invariant :
    ∀ (sub : Option (List PositionUpdate)) (row : PositionRow),
      row ∈ collect_positions sub →
      row.market_value = row.position * row.average_cost := by
  intro sub row
  cases sub with
  | none => intro h; simp [collect_positions] at h
  | some msgs =>
    induction msgs with
    | nil => intro h; simp [collect_positions, drain_positions] at h
    | cons m rest ih =>
      intro h
      cases m with
      | Position pos =>
        simp only [collect_positions, drain_positions, List.mem_cons] at h
        rcases h with h | h
        · subst h; rfl
        · exact ih (by simpa [collect_positions] using h)
      | PositionEnd => simp [collect_positions, drain_positions] at h

/-- C2 witness: a concrete position of 2 units at average cost 3. -/
theorem position_market_value_invariant_witness :
    (positionToRow samplePosition ∈
      collect_positions (some [PositionUpdate.Position samplePosition,
        PositionUpdate.PositionEnd])) ∧
    (positionToRow samplePosition).market_value =
      (positionToRow samplePosition).position *
        (positionToRow samplePosition).average_cost := by
  have hmem : positionToRow samplePosition ∈
      collect_positions (some [PositionUpdate.Position samplePosition,
        PositionUpdate.PositionEnd]) := List.mem_cons_self _ _
  exact ⟨hmem, position_market_value_invariant _ _ hmem⟩

/-- C4: messages translate to rows 1:1 and in arrival order — a stream
of `Summary` messages followed by `End` yields exactly the image of the
prefix under the row mapping, and likewise for `Position` messages
followed by `PositionEnd`. -/
theorem rows_in_arrival_order :
    (∀ (summaries : List Summary) (rest : List AccountSummaryResult),
      (drain_account_summary (summaries.map AccountSummaryResult.Summary ++
          AccountSummaryResult.End :: rest)).rows = summaries.map summaryToRow) ∧
    (∀ (updates : List PositionData) (rest : List PositionUpdate),
      (drain_positions (updates.map PositionUpdate.Position ++
          PositionUpdate.PositionEnd :: rest)).rows = updates.map positionToRow) := by
  constructor
  · intro summaries rest
    induction summaries with
    | nil => rfl
    | cons s ss ih => simp [drain_account_summary, ih]
  · intro updates rest
    induction updates with
    | nil => rfl
    | cons u us ih => simp [drain_positions, ih]

/-- C5: up to `SnapshotEnd` the market-data loop maps each tick through
the per-tick rule — `Price` and `PriceSize` yield a row with
`value = price`, `Size` yields a row with `value = size`, every other
variant yields no row — and `SnapshotEnd` terminates the loop. -/
theorem market_data_tick_mapping (symbol : String) (pre post : List TickTypes)
    (hpre : ∀ t ∈ pre, t ≠ TickTypes.SnapshotEnd) :
    (drain_market_data symbol (pre ++ TickTypes.SnapshotEnd :: post)).rows =
      pre.filterMap (tickToRow symbol) ∧
    (drain_market_data symbol (pre ++ TickTypes.SnapshotEnd :: post)).consumed =
      pre.length + 1 ∧
    (∀ p, tickToRow symbol (TickTypes.Price p) = some ⟨symbol, p.tick_type, p.price⟩) ∧
    (∀ s, tickToRow symbol (TickTypes.Size s) = some ⟨symbol, s.tick_type, s.size⟩) ∧
    (∀ ps, tickToRow symbol (TickTypes.PriceSize ps) =
      some ⟨symbol, ps.price_tick_type, ps.price⟩) ∧
    tickToRow symbol TickTypes.OtherTick = none := by
  refine ⟨drain_market_data_rows symbol pre post hpre,
    (drain_market_data_stops symbol pre post hpre).2,
    fun p => rfl, fun s => rfl, fun ps => rfl, rfl⟩

/-- C5 witness: a price tick and an ignored tick before the sentinel. -/
theorem market_data_tick_mapping_witness :
    (∀ t ∈ [TickTypes.Price samplePriceTick, TickTypes.OtherTick],
      t ≠ TickTypes.SnapshotEnd) ∧
    ((drain_market_data "AAPL"
        ([TickTypes.Price samplePriceTick, TickTypes.OtherTick] ++
          TickTypes.SnapshotEnd :: [])).rows =
      [TickTypes.Price samplePriceTick,
        TickTypes.OtherTick].filterMap (tickToRow "AAPL") ∧
      (drain_market_data "AAPL"
        ([TickTypes.Price samplePriceTick, TickTypes.OtherTick] ++
          TickTypes.SnapshotEnd :: [])).consumed =
        [TickTypes.Price samplePriceTick, TickTypes.OtherTick].length + 1 ∧
      (∀ p, tickToRow "AAPL" (TickTypes.Price p) = some ⟨"AAPL", p.tick_type, p.price⟩) ∧
      (∀ s, tickToRow "AAPL" (TickTypes.Size s) = some ⟨"AAPL", s.tick_type, s.size⟩) ∧
      (∀ ps, tickToRow "AAPL" (TickTypes.PriceSize ps) =
        some ⟨"AAPL", ps.price_tick_type, ps.price⟩) ∧
      tickToRow "AAPL" TickTypes.OtherTick = none) := by
  have hpre : ∀ t ∈ [TickTypes.Price samplePriceTick, TickTypes.OtherTick],
      t ≠ TickTypes.SnapshotEnd := by
    intro t ht
    simp only [List.mem_cons, List.not_mem_nil, or_false] at ht
    rcases ht with rfl | rfl <;> nofun
  exact ⟨hpre, market_data_tick_mapping "AAPL" _ [] hpre⟩

/-- C10: every market-data row carries the CLI-requested symbol,
whatever tick variant produced it and whatever the subscription
yielded. -/
theorem market_data_symbol_from_cli :
    ∀ (symbol : String) (sub : Option (List TickTypes)) (row : MarketDataRow),
      row ∈ collect_market_data symbol sub → row.symbol = symbol := by
  intro symbol sub row
  cases sub with
  | none => intro h; simp [collect_market_data] at h
  | some ticks =>
    induction ticks with
    | nil => intro h; simp [collect_market_data, drain_market_data] at h
    | cons t rest ih =>
      intro h
      cases t with
      | Price p =>
        simp only [collect_market_data, drain_market_data, List.mem_cons] at h
        rcases h with h | h
        · subst h; rfl
        · exact ih (by simpa [collect_market_data] using h)
      | Size s =>
        simp only [collect_market_data, drain_market_data, List.mem_cons] at h
        rcases h with h | h
        · subst h; rfl
        · exact ih (by simpa [collect_market_data] using h)
      | PriceSize ps =>
        simp only [collect_market_data, drain_market_data, List.mem_cons] at h
        rcases h with h | h
        · subst h; rfl
        · exact ih (by simpa [collect_market_data] using h)
      | SnapshotEnd => simp [collect_market_data, drain_market_data] at h
      | OtherTick =>
        simp only [collect_market_data, drain_market_data] at h
        exact ih (by simpa [collect_market_data] using h)

/-- C10 witness: a size tick for symbol MSFT. -/
theorem market_data_symbol_from_cli_witness :
    ((⟨"MSFT", sampleSizeTick.tick_type, sampleSizeTick.size⟩ : MarketDataRow) ∈
      collect_market_data "MSFT"
        (some [TickTypes.Size sampleSizeTick, TickTypes.SnapshotEnd])) ∧
    (⟨"MSFT", sampleSizeTick.tick_type, sampleSizeTick.size⟩ : MarketDataRow).symbol =
      "MSFT" := by
  have hmem : (⟨"MSFT", sampleSizeTick.tick_type, sampleSizeTick.size⟩ : MarketDataRow) ∈
      collect_market_data "MSFT"
        (some [TickTypes.Size sampleSizeTick, TickTypes.SnapshotEnd]) :=
    List.mem_cons_self _ _
  exact ⟨hmem, market_data_symbol_from_cli "MSFT" _ _ hmem⟩

/-- C3: with the connection up, a failed subscription open (`none`)
leaves that category's collection empty while the run still exits with
code 0 and renders the report; each collection depends only on its own
subscription outcome. -/
theorem failed_open_degrades_silently (g : Gateway) (format : OutputFormat)
    (symbol : String) (nmd : Bool) (hc : g.connect_ok = true) :
    (run_main g format symbol nmd).1 = 0 ∧
    (run_main g format symbol nmd).2 =
      some (build_output_data g symbol nmd,
        render format (build_output_data g symbol nmd) symbol) ∧
    (g.account_summary_sub = none →
      (build_output_data g symbol nmd).account_summary = []) ∧
    (g.positions_sub = none → (build_output_data g symbol nmd).positions = []) ∧
    (g.market_data_sub = none → (build_output_data g symbol nmd).market_data = []) ∧
    (build_output_data g symbol nmd).account_summary =
      collect_account_summary g.account_summary_sub ∧
    (build_output_data g symbol nmd).positions = collect_positions g.positions_sub ∧
    (nmd = false → (build_output_data g symbol nmd).market_data =
      collect_market_data symbol g.market_data_sub) := by
  refine ⟨?_, ?_, ?_, ?_, ?_, rfl, rfl, ?_⟩
  · simp [run_main, hc]
  · simp [run_main, hc]
  · intro h; simp [build_output_data, h, collect_account_summary]
  · intro h; simp [build_output_data, h, collect_positions]
  · intro h; cases nmd <;> simp [build_output_data, h, collect_market_data]
  · intro h; subst h; simp [build_output_data]

/-- Concrete gateway for witnesses: connection up, positions open
fails, the other two subscriptions succeed. -/
def sampleGateway : Gateway :=
  ⟨true, some [AccountSummaryResult.Summary sampleSummary, AccountSummaryResult.End],
    none, some [TickTypes.Price samplePriceTick, TickTypes.SnapshotEnd]⟩

/-- C3 witness: the sample gateway with a failed positions open. -/
theorem failed_open_degrades_silently_witness :
    sampleGateway.connect_ok = true ∧
    (run_main sampleGateway OutputFormat.Text "AAPL" false).1 = 0 ∧
    sampleGateway.positions_sub = none ∧
    (build_output_data sampleGateway "AAPL" false).positions = [] := by
  have h := failed_open_degrades_silently sampleGateway OutputFormat.Text "AAPL" false rfl
  exact ⟨rfl, h.1, rfl, h.2.2.2.1 rfl⟩

/-- C6: CSV output of a report with empty positions and non-empty
account-summary and market-data collections is exactly the two tables
separated by the single blank line; it has exactly two header lines,
exactly one blank line, and no line of the positions table. -/
theorem csv_skips_empty_collections (d : OutputData)
    (hp : d.positions = []) (ha : d.account_summary ≠ []) (hm : d.market_data ≠ []) :
    print_csv d =
      (CsvLine.header ["account", "tag", "value", "currency"] ::
        d.account_summary.map CsvLine.summaryRecord ++ [CsvLine.blank]) ++
      (CsvLine.header ["symbol", "tick_type", "value"] ::
        d.market_data.map CsvLine.marketRecord) ∧
    ((print_csv d).filter CsvLine.isHeader).length = 2 ∧
    ((print_csv d).filter CsvLine.isBlank).length = 1 ∧
    (∀ l ∈ print_csv d, l.isPositionsLine = false) := by
  have hA : d.account_summary.isEmpty = false := by
    cases h : d.account_summary with
    | nil => exact absurd h ha
    | cons a as => rfl
  have hM : d.market_data.isEmpty = false := by
    cases h : d.market_data with
    | nil => exact absurd h hm
    | cons a as => rfl
  have hP : d.positions.isEmpty = true := by rw [hp]; rfl
  have hshape : print_csv d =
      (CsvLine.header ["account", "tag", "value", "currency"] ::
        d.account_summary.map CsvLine.summaryRecord ++ [CsvLine.blank]) ++
      (CsvLine.header ["symbol", "tick_type", "value"] ::
        d.market_data.map CsvLine.marketRecord) := by
    simp [print_csv, hA, hM, hP]
  have hhs : (d.account_summary.map CsvLine.summaryRecord).filter CsvLine.isHeader = [] :=
    filter_map_eq_nil _ _ (fun r => rfl) _
  have hhm : (d.market_data.map CsvLine.marketRecord).filter CsvLine.isHeader = [] :=
    filter_map_eq_nil _ _ (fun r => rfl) _
  have hbs : (d.account_summary.map CsvLine.summaryRecord).filter CsvLine.isBlank = [] :=
    filter_map_eq_nil _ _ (fun r => rfl) _
  have hbm : (d.market_data.map CsvLine.marketRecord).filter CsvLine.isBlank = [] :=
    filter_map_eq_nil _ _ (fun r => rfl) _
  refine ⟨hshape, ?_, ?_, ?_⟩
  · rw [hshape]
    simp [List.filter_append, List.filter_cons, hhs, hhm, CsvLine.isHeader]
  · rw [hshape]
    simp [List.filter_append, List.filter_cons, hbs, hbm, CsvLine.isBlank]
  · rw [hshape]
    intro l hl
    rcases List.mem_append.mp hl with h | h
    · rcases List.mem_cons.mp h with rfl | h
      · rfl
      · rcases List.mem_append.mp h with h | h
        · obtain ⟨r, _, rfl⟩ := List.mem_map.mp h
          rfl
        · rw [List.mem_singleton.mp h]
          rfl
    · rcases List.mem_cons.mp h with rfl | h
      · rfl
      · obtain ⟨r, _, rfl⟩ := List.mem_map.mp h
        rfl

/-- Concrete report with empty positions for the C6 witness. -/
def sampleReport : OutputData :=
  ⟨[summaryToRow sampleSummary], [],
    [⟨"AAPL", samplePriceTick.tick_type, samplePriceTick.price⟩]⟩

/-- C6 witness: the sample report with empty positions renders as
exactly two CSV tables. -/
theorem csv_skips_empty_collections_witness :
    sampleReport.positions = [] ∧
    sampleReport.account_summary ≠ [] ∧
    sampleReport.market_data ≠ [] ∧
    (print_csv sampleReport =
      (CsvLine.header ["account", "tag", "value", "currency"] ::
        sampleReport.account_summary.map CsvLine.summaryRecord ++ [CsvLine.blank]) ++
      (CsvLine.header ["symbol", "tick_type", "value"] ::
        sampleReport.market_data.map CsvLine.marketRecord) ∧
      ((print_csv sampleReport).filter CsvLine.isHeader).length = 2 ∧
      ((print_csv sampleReport).filter CsvLine.isBlank).length = 1 ∧
      (∀ l ∈ print_csv sampleReport, l.isPositionsLine = false)) := by
  refine ⟨rfl, List.cons_ne_nil _ _, List.cons_ne_nil _ _, ?_⟩
  exact csv_skips_empty_collections sampleReport rfl
    (List.cons_ne_nil _ _) (List.cons_ne_nil _ _)

/-- C7 counterexample: rendering an all-empty report in text format
yields exactly two placeholder lines — positions and market data — and
the account-summary section (banner, title, banner) is followed
immediately by the blank line, with no placeholder, so the claim that
all three sections, including account summary, get a placeholder is
false. -/
theorem text_account_summary_no_placeholder :
    print_text ⟨[], [], []⟩ "AAPL" =
      [TextLine.banner, TextLine.title "ACCOUNT SUMMARY", TextLine.banner, TextLine.blank,
        TextLine.banner, TextLine.title "POSITIONS", TextLine.banner, TextLine.noPositions,
        TextLine.blank, TextLine.banner, TextLine.title ("MARKET DATA: " ++ "AAPL"),
        TextLine.banner, TextLine.noMarketData, TextLine.blank, TextLine.done] ∧
    ((print_text ⟨[], [], []⟩ "AAPL").filter TextLine.isPlaceholder).length = 2 ∧
    (∀ l ∈ (print_text ⟨[], [], []⟩ "AAPL").take 4, l.isPlaceholder = false) := by
  refine ⟨rfl, rfl, ?_⟩
  intro l hl
  simp only [List.take, List.mem_cons, List.not_mem_nil, or_false] at hl
  rcases hl with rfl | rfl | rfl | rfl <;> rfl

/-- C7 (amended): the text renderer emits the three sections in fixed
order (their titles appear in that order), empty positions and
market-data collections get their placeholder lines, but an empty
account-summary collection renders an empty section: banner, title,
banner, then directly the blank separator, with no placeholder. -/
theorem text_sections_and_placeholders (d : OutputData) (symbol : String) :
    (print_text d symbol).filter TextLine.isTitle =
      [TextLine.title "ACCOUNT SUMMARY", TextLine.title "POSITIONS",
        TextLine.title ("MARKET DATA: " ++ symbol)] ∧
    (d.positions.isEmpty = true → TextLine.noPositions ∈ print_text d symbol) ∧
    (d.market_data.isEmpty = true → TextLine.noMarketData ∈ print_text d symbol) ∧
    (d.account_summary.isEmpty = true →
      (print_text d symbol).take 4 =
        [TextLine.banner, TextLine.title "ACCOUNT SUMMARY", TextLine.banner,
          TextLine.blank]) := by
  have hsum : (d.account_summary.map (fun r =>
      if r.currency.isEmpty then TextLine.summaryNoCurrency r
      else TextLine.summaryWithCurrency r)).filter TextLine.isTitle = [] := by
    refine filter_map_eq_nil _ _ (fun r => ?_) _
    by_cases h : r.currency.isEmpty <;> simp [h, TextLine.isTitle]
  have hpos : (d.positions.map TextLine.positionLine).filter TextLine.isTitle = [] :=
    filter_map_eq_nil _ _ (fun r => rfl) _
  have hmkt : (d.market_data.map TextLine.marketLine).filter TextLine.isTitle = [] :=
    filter_map_eq_nil _ _ (fun r => rfl) _
  refine ⟨?_, ?_, ?_, ?_⟩
  · cases hP : d.positions.isEmpty <;> cases hM : d.market_data.isEmpty <;>
      simp [print_text, hP, hM, List.filter_append, List.filter_cons,
        hsum, hpos, hmkt, TextLine.isTitle]
  · intro h
    simp [print_text, h]
  · intro h
    simp [print_text, h]
  · intro h
    have h0 : d.account_summary = [] := List.isEmpty_iff.mp h
    simp [print_text, h0]

/-- C7 witness: the all-empty report. -/
theorem text_sections_and_placeholders_witness :
    ((⟨[], [], []⟩ : OutputData).positions.isEmpty = true ∧
      (⟨[], [], []⟩ : OutputData).market_data.isEmpty = true ∧
      (⟨[], [], []⟩ : OutputData).account_summary.isEmpty = true) ∧
    ((print_text ⟨[], [], []⟩ "AAPL").filter TextLine.isTitle =
      [TextLine.title "ACCOUNT SUMMARY", TextLine.title "POSITIONS",
        TextLine.title ("MARKET DATA: " ++ "AAPL")] ∧
      TextLine.noPositions ∈ print_text ⟨[], [], []⟩ "AAPL" ∧
      TextLine.noMarketData ∈ print_text ⟨[], [], []⟩ "AAPL" ∧
      (print_text ⟨[], [], []⟩ "AAPL").take 4 =
        [TextLine.banner, TextLine.title "ACCOUNT SUMMARY", TextLine.banner,
          TextLine.blank]) := by
  have h := text_sections_and_placeholders ⟨[], [], []⟩ "AAPL"
  exact ⟨⟨rfl, rfl, rfl⟩, h.1, h.2.1 rfl, h.2.2.1 rfl, h.2.2.2 rfl⟩

/-- C8 counterexample: a serialized position row's field names are the
snake_case Rust names; `averageCost` and `marketValue` do not occur, so
the claim's field names are false of the produced JSON. -/
theorem json_position_row_lacks_camel_case_fields :
    (positionRowJson (positionToRow samplePosition)).topKeys =
      ["account", "symbol", "position", "average_cost", "market_value"] ∧
    "averageCost" ∉ (positionRowJson (positionToRow samplePosition)).topKeys ∧
    "marketValue" ∉ (positionRowJson (positionToRow samplePosition)).topKeys := by
  refine ⟨rfl, ?_, ?_⟩ <;> decide

/-- C8 (amended): JSON output is a single top-level object holding
exactly the three collections under the keys `account_summary`,
`positions`, `market_data`, independent of row count (the statement
quantifies over every report, including all-empty), and each row object
carries exactly the snake_case Rust field names of its row struct. -/
theorem json_top_level_shape (d : OutputData) :
    (print_json d).topKeys = ["account_summary", "positions", "market_data"] ∧
    (∀ r : AccountSummaryRow,
      (accountSummaryRowJson r).topKeys = ["account", "tag", "value", "currency"]) ∧
    (∀ r : PositionRow, (positionRowJson r).topKeys =
      ["account", "symbol", "position", "average_cost", "market_value"]) ∧
    (∀ r : MarketDataRow,
      (marketDataRowJson r).topKeys = ["symbol", "tick_type", "value"]) :=
  ⟨rfl, fun _ => rfl, fun _ => rfl, fun _ => rfl⟩

/-- C9: the exit code is 1 with no report when the connection fails, and
0 otherwise; a failed positions open leaves the exit code 0 and the
report rendered, with empty positions and the other two categories
collected from their own subscriptions. -/
theorem exit_code_policy (g : Gateway) (format : OutputFormat) (symbol : String)
    (nmd : Bool) :
    (g.connect_ok = false →
      (run_main g format symbol nmd).1 = 1 ∧ (run_main g format symbol nmd).2 = none) ∧
    (g.connect_ok = true → (run_main g format symbol nmd).1 = 0) ∧
    (g.connect_ok = true → g.positions_sub = none →
      (run_main g format symbol nmd).1 = 0 ∧
      (run_main g format symbol nmd).2 =
        some (build_output_data g symbol nmd,
          render format (build_output_data g symbol nmd) symbol) ∧
      (build_output_data g symbol nmd).positions = [] ∧
      (build_output_data g symbol nmd).account_summary =
        collect_account_summary g.account_summary_sub ∧
      (nmd = false → (build_output_data g symbol nmd).market_data =
        collect_market_data symbol g.market_data_sub)) := by
  refine ⟨?_, ?_, ?_⟩
  · intro h
    constructor <;> simp [run_main, h]
  · intro h
    simp [run_main, h]
  · intro h hpos
    refine ⟨by simp [run_main, h], by simp [run_main, h], ?_, rfl, ?_⟩
    · simp [build_output_data, hpos, collect_positions]
    · intro hn
      subst hn
      simp [build_output_data]

/-- C9 witness: the sample gateway (connection up, positions open
failed). -/
theorem exit_code_policy_witness :
    sampleGateway.connect_ok = true ∧
    sampleGateway.positions_sub = none ∧
    ((run_main sampleGateway OutputFormat.Json "AAPL" false).1 = 0 ∧
      (build_output_data sampleGateway "AAPL" false).positions = [] ∧
      (build_output_data sampleGateway "AAPL" false).account_summary =
        collect_account_summary sampleGateway.account_summary_sub) := by
  have h := (exit_code_policy sampleGateway OutputFormat.Json "AAPL" false).2.2 rfl rfl
  exact ⟨rfl, rfl, h.1, h.2.2.1, h.2.2.2.1⟩

end PlatIbkr
